import Mathlib

/-!
# EpicShader: material block marshalling, texture slots and light dispatch

A shallow embedding of `common/Rendering/Shaders/EpicShader.{h,cpp}`.

* C++ `float` values are only ever copied by this code (never computed with), so a
  `float` is kept as the four bytes of its object representation.
* The OpenGL context is an explicit state record `GLState`; every `const` member
  function of the shader becomes a function on that record, every mutating member
  function a function on `EpicShader × GLState`.
* `memcpy` into `materialStorage` is bounds-checked, a null `Texture*` dereference and a
  failed `assert` are reported: fallible functions return `Except Fault _`.
* Declarations that live outside the translated sources (`Light::LightType`,
  `TextureSlots::SPECULAR`, `TextureLoader::LoadTexture`, the out-parameters of
  `SetupUniformBlock`) are parameters of the functions that use them.
* `OGL_CALL(x)` is taken to execute `x`; the file is translated in the configuration it
  compiles, with `DISABLE_OPENGL_SUBROUTINES` defined.
-/

namespace CS148

/-! ## Machine types -/

abbrev GLuint := Nat
abbrev GLint := Int
abbrev GLenum := Nat
abbrev GLubyte := Fin 256

/-- OpenGL constant `GL_INVALID_INDEX` (0xFFFFFFFF). -/
def GL_INVALID_INDEX : GLuint := 4294967295

/-- C++ `float`: the four bytes of its object representation, in memory order. -/
structure GLfloat where
  b0 : GLubyte
  b1 : GLubyte
  b2 : GLubyte
  b3 : GLubyte
deriving DecidableEq, Repr

/-- The bytes `memcpy(dst, &f, sizeof(float))` copies. -/
def GLfloat.raw (f : GLfloat) : List GLubyte := [f.b0, f.b1, f.b2, f.b3]

/-- Literal `0.f` (IEEE-754 single 0x00000000, little-endian storage). -/
def float_0 : GLfloat := ⟨0x00, 0x00, 0x00, 0x00⟩
/-- Literal `1.f` (0x3F800000). -/
def float_1 : GLfloat := ⟨0x00, 0x00, 0x80, 0x3F⟩
/-- Literal `2.f` (0x40000000). -/
def float_2 : GLfloat := ⟨0x00, 0x00, 0x00, 0x40⟩
/-- Literal `0.1f` (0x3DCCCCCD). -/
def float_0_1 : GLfloat := ⟨0xCD, 0xCC, 0xCC, 0x3D⟩
/-- Literal `0.5f` (0x3F000000). -/
def float_0_5 : GLfloat := ⟨0x00, 0x00, 0x00, 0x3F⟩
/-- Literal `5.f` (0x40A00000). -/
def float_5 : GLfloat := ⟨0x00, 0x00, 0xA0, 0x40⟩

/-- The type `glm::vec4`: four consecutive floats. -/
structure vec4 where
  x : GLfloat
  y : GLfloat
  z : GLfloat
  w : GLfloat
deriving DecidableEq, Repr

/-- Object representation of a `glm::vec4` (16 bytes). -/
def vec4.raw (v : vec4) : List GLubyte := v.x.raw ++ v.y.raw ++ v.z.raw ++ v.w.raw

/-- A texture object, identified by its OpenGL texture name. A
`std::shared_ptr<Texture>` is an `Option Texture`, `none` being the empty handle. -/
structure Texture where
  glTexture : GLuint
deriving DecidableEq, Repr

/-- The value overloads of `SetShaderUniform` used by the shader. -/
inductive UniformValue where
  | int (v : Int)
  | float (v : GLfloat)
  | vec4 (v : vec4)
deriving DecidableEq, Repr

/-- Ways in which an execution leaves defined behaviour. -/
inductive Fault where
  | outOfBounds
  | assertionFailed
  | nullDereference
deriving DecidableEq, Repr

/-! ## The OpenGL context -/

/-- The part of the OpenGL context (and of the process) the shader touches. -/
structure GLState where
  /-- Program made current by `glUseProgram`. -/
  currentProgram : GLuint
  /-- Buffer bound to the generic `GL_UNIFORM_BUFFER` target. -/
  uniformBufferBinding : GLuint
  /-- Data store of every buffer object that has one. -/
  bufferStore : GLuint → Option (List GLubyte)
  /-- Buffer bound at each indexed `GL_UNIFORM_BUFFER` binding point. -/
  indexedBinding : Int → GLuint
  /-- Binding point assigned to a (program, uniform block index) pair. -/
  blockBinding : GLuint → GLuint → Option Int
  /-- Value most recently passed to `SetShaderUniform` under each name. -/
  uniforms : String → Option UniformValue
  /-- Texture most recently bound on each texture unit. -/
  textureUnits : Int → Option Texture
  /-- Lines written to `std::cerr`. -/
  cerr : List String
  /-- Number of `glBufferData` commands issued so far. -/
  bufferDataCalls : Nat

/-- Command `glUseProgram(program)`. -/
def glUseProgram (program : GLuint) (gl : GLState) : GLState :=
  { gl with currentProgram := program }

/-- Command `glBindBuffer(GL_UNIFORM_BUFFER, buffer)`. -/
def glBindBuffer (buffer : GLuint) (gl : GLState) : GLState :=
  { gl with uniformBufferBinding := buffer }

/-- Command `glBufferData(GL_UNIFORM_BUFFER, size, data, GL_STATIC_DRAW)`: the buffer bound to
the target receives a fresh data store holding the first `size` bytes found at `data`. -/
def glBufferData (size : GLint) (data : List GLubyte) (gl : GLState) : GLState :=
  { gl with
    bufferStore := fun b =>
      if b = gl.uniformBufferBinding then some (data.take size.toNat) else gl.bufferStore b
    bufferDataCalls := gl.bufferDataCalls + 1 }

/-- Command `glBindBufferBase(GL_UNIFORM_BUFFER, index, buffer)`: binds both the indexed
binding point and the generic target. -/
def glBindBufferBase (index : Int) (buffer : GLuint) (gl : GLState) : GLState :=
  { gl with
    indexedBinding := fun i => if i = index then buffer else gl.indexedBinding i
    uniformBufferBinding := buffer }

/-- Command `glUniformBlockBinding(program, blockIndex, bindingPoint)`. -/
def glUniformBlockBinding (program blockIndex : GLuint) (bindingPoint : Int) (gl : GLState) :
    GLState :=
  { gl with
    blockBinding := fun p b =>
      if p = program ∧ b = blockIndex then some bindingPoint else gl.blockBinding p b }

/-- Modelled from the spec: `ShaderProgram::SetShaderUniform(name, value)` is declared in
`ShaderProgram.h`, which is not among the translated sources. It hands `value` to the program
under `name`; the table records the value most recently handed over for each name. -/
def SetShaderUniform (name : String) (value : UniformValue) (gl : GLState) : GLState :=
  { gl with uniforms := fun n => if n = name then some value else gl.uniforms n }

/-- Modelled from the spec: `Texture::BeginRender(unit)` (the texture resource's
bind-to-unit operation) makes the texture the one bound on texture unit `unit`. -/
def Texture.BeginRender (t : Texture) (unit : Int) (gl : GLState) : GLState :=
  { gl with textureUnits := fun u => if u = unit then some t else gl.textureUnits u }

/-- Writing one line to `std::cerr`. -/
def cerrLine (line : String) (gl : GLState) : GLState :=
  { gl with cerr := gl.cerr ++ [line] }

/-! ## Raw memory -/

/-- Bounds-checked `memcpy(storage.data() + offset, &value, sizeof(float))`: the four
destination bytes must lie inside the vector. -/
def memcpyFloat (storage : List GLubyte) (offset : GLint) (value : GLfloat) :
    Except Fault (List GLubyte) :=
  if 0 ≤ offset ∧ offset + 4 ≤ (storage.length : Int) then
    .ok (storage.take offset.toNat ++ value.raw ++ storage.drop (offset.toNat + 4))
  else
    .error .outOfBounds

/-- The four bytes of `storage` starting at byte `offset`. -/
def bytesAt (storage : List GLubyte) (offset : GLint) : List GLubyte :=
  (storage.drop offset.toNat).take 4

/-! ## The shader object -/

/-- Enumerators of `EpicShader::TextureSlots::Type` declared in `EpicShader.h`. -/
def TextureSlots.DIFFUSE : Int := 0
/-- Second enumerator of `TextureSlots::Type`. -/
def TextureSlots.NORMAL : Int := 1
/-- Third enumerator of `TextureSlots::Type`. -/
def TextureSlots.DISPLACEMENT : Int := 2

/-- Modelled from the spec: `EpicShader.cpp` uses `TextureSlots::SPECULAR`, which the
enumeration in `EpicShader.h` does not declare; its value is a parameter `SPECULAR` of the
functions below. The spec calls it a fourth identity next to the three public slots, which
is this predicate. -/
def TextureSlots.FourthIdentity (SPECULAR : Int) : Prop :=
  SPECULAR ≠ TextureSlots.DIFFUSE ∧ SPECULAR ≠ TextureSlots.NORMAL ∧
    SPECULAR ≠ TextureSlots.DISPLACEMENT

instance (SPECULAR : Int) : Decidable (TextureSlots.FourthIdentity SPECULAR) := by
  unfold TextureSlots.FourthIdentity; infer_instance

/-- Constant `EpicShader::MATERIAL_BINDING_POINT`. -/
def MATERIAL_BINDING_POINT : Int := 0

/-- Data members of `EpicShader` (with `shaderProgram` inherited from `ShaderProgram`).
`materialIndices` is only ever passed to `SetupUniformBlock` and is left out. The map
`textureSlotMapping` sends a key to `none` when the key is absent and to `some p` when it maps
to the handle `p` (which may itself be empty). -/
structure EpicShader where
  shaderProgram : GLuint
  roughness : GLfloat
  specular : GLfloat
  metallic : GLfloat
  ambient : vec4
  materialBlockLocation : GLuint
  materialBlockSize : GLint
  materialOffsets : Fin 3 → GLint
  materialBuffer : GLuint
  materialStorage : List GLubyte
  defaultTexture : Option Texture
  textureSlotMapping : Int → Option (Option Texture)
  lightingShaderStage : GLenum
  maxDisplacement : GLfloat

/-- Modelled from the spec: `ShaderProgram::StartUseShader` (scoped activation, begin):
the shader's program becomes the current one. -/
def EpicShader.StartUseShader (s : EpicShader) (gl : GLState) : GLState :=
  glUseProgram s.shaderProgram gl

/-- Modelled from the spec: `ShaderProgram::StopUseShader` (scoped activation, end):
no program is current afterwards. -/
def EpicShader.StopUseShader (_s : EpicShader) (gl : GLState) : GLState :=
  glUseProgram 0 gl

/-- The guarded upload of `EpicShader::UpdateMaterialBlock` (the body of its `if`). -/
def EpicShader.uploadMaterialBlock (s : EpicShader) (gl : GLState) : GLState :=
  if s.materialBuffer ≠ 0 ∧ s.materialBlockLocation ≠ GL_INVALID_INDEX then
    glBindBuffer 0
      (glUniformBlockBinding s.shaderProgram s.materialBlockLocation MATERIAL_BINDING_POINT
        (glBindBufferBase MATERIAL_BINDING_POINT s.materialBuffer
          (glBufferData s.materialBlockSize s.materialStorage
            (glBindBuffer s.materialBuffer gl))))
  else
    gl

/-- Member `EpicShader::UpdateMaterialBlock`: three `memcpy`s into the staging storage, then
the guarded upload, between `StartUseShader` and `StopUseShader`. -/
def EpicShader.UpdateMaterialBlock (s : EpicShader) (gl : GLState) :
    Except Fault (EpicShader × GLState) :=
  let gl1 := s.StartUseShader gl
  match memcpyFloat s.materialStorage (s.materialOffsets 0) s.roughness with
  | .error e => .error e
  | .ok st1 =>
    match memcpyFloat st1 (s.materialOffsets 1) s.specular with
    | .error e => .error e
    | .ok st2 =>
      match memcpyFloat st2 (s.materialOffsets 2) s.metallic with
      | .error e => .error e
      | .ok st3 =>
        let s1 := { s with materialStorage := st3 }
        .ok (s1, s1.StopUseShader (s1.uploadMaterialBlock gl1))

/-- Member `EpicShader::SetRoughness`. -/
def EpicShader.SetRoughness (inRoughness : GLfloat) (s : EpicShader) (gl : GLState) :
    Except Fault (EpicShader × GLState) :=
  EpicShader.UpdateMaterialBlock { s with roughness := inRoughness } gl

/-- Member `EpicShader::SetSpecular`. -/
def EpicShader.SetSpecular (inSpecular : GLfloat) (s : EpicShader) (gl : GLState) :
    Except Fault (EpicShader × GLState) :=
  EpicShader.UpdateMaterialBlock { s with specular := inSpecular } gl

/-- Member `EpicShader::SetMetallic`. -/
def EpicShader.SetMetallic (inMetallic : GLfloat) (s : EpicShader) (gl : GLState) :
    Except Fault (EpicShader × GLState) :=
  EpicShader.UpdateMaterialBlock { s with metallic := inMetallic } gl

/-- Member `EpicShader::SetAmbient`. -/
def EpicShader.SetAmbient (inAmbient : vec4) (s : EpicShader) (gl : GLState) :
    Except Fault (EpicShader × GLState) :=
  EpicShader.UpdateMaterialBlock { s with ambient := inAmbient } gl

/-- Member `EpicShader::SetTexture`: `textureSlotMapping[slot] = std::move(inputTexture)`. -/
def EpicShader.SetTexture (slot : Int) (inputTexture : Option Texture) (s : EpicShader) :
    EpicShader :=
  { s with
    textureSlotMapping := fun k => if k = slot then some inputTexture else s.textureSlotMapping k }

/-- Member `EpicShader::SetMaxDisplacement`. -/
def EpicShader.SetMaxDisplacement (input : GLfloat) (s : EpicShader) : EpicShader :=
  { s with maxDisplacement := input }

/-- What `SetupUniformBlock<3>` (a template of `ShaderProgram.h`, outside the translated
sources) leaves in the five data members it receives by reference. -/
structure UniformBlockSetup where
  materialOffsets : Fin 3 → GLint
  materialStorage : List GLubyte
  materialBlockLocation : GLuint
  materialBlockSize : GLint
  materialBuffer : GLuint

/-- The member initialiser list of `EpicShader::EpicShader`. `uninit` is the indeterminate
initial content of `materialOffsets`, which the list does not mention; `materialStorage`,
`defaultTexture` and `textureSlotMapping` are default-constructed (empty). -/
def EpicShader.initialiserList (program : GLuint) (lightingStage : GLenum)
    (uninit : Fin 3 → GLint) : EpicShader :=
  { shaderProgram := program
    roughness := float_2
    specular := float_0
    metallic := float_0
    ambient := ⟨float_0_1, float_0_1, float_0_1, float_1⟩
    materialBlockLocation := 0
    materialBlockSize := 0
    materialOffsets := uninit
    materialBuffer := 0
    materialStorage := []
    defaultTexture := none
    textureSlotMapping := fun _ => none
    lightingShaderStage := lightingStage
    maxDisplacement := float_0_5 }

/-- The call `SetupUniformBlock<3>("InputMaterial", ...)` seen from the shader: the five
members passed by reference take the values the call leaves in them. -/
def EpicShader.SetupUniformBlock (setup : UniformBlockSetup) (s : EpicShader) : EpicShader :=
  { s with
    materialOffsets := setup.materialOffsets
    materialStorage := setup.materialStorage
    materialBlockLocation := setup.materialBlockLocation
    materialBlockSize := setup.materialBlockSize
    materialBuffer := setup.materialBuffer }

/-- Constructor `EpicShader::EpicShader`. `program` is the handle the `ShaderProgram` base
constructor produced (0 when compiling or linking failed), `setup` the outcome of
`SetupUniformBlock<3>` and `loaded` the result of loading `required/defaultTexture.png`. -/
def EpicShader.ctor (program : GLuint) (lightingStage : GLenum) (uninit : Fin 3 → GLint)
    (setup : UniformBlockSetup) (loaded : Option Texture) (gl : GLState) :
    Except Fault (EpicShader × GLState) :=
  let s0 := EpicShader.initialiserList program lightingStage uninit
  if program = 0 then
    .ok (s0, gl)
  else
    match (s0.SetupUniformBlock setup).UpdateMaterialBlock gl with
    | .error e => .error e
    | .ok (s2, gl2) =>
      let s3 := { s2 with defaultTexture := loaded }
      match loaded with
      | none => .ok (s3, cerrLine "WARNING: Failed to load the default texture." gl2)
      | some _ => .ok (s3, gl2)

/-! ## Light dispatch -/

/-- Modelled from the spec: the enumeration `Light::LightType` is declared in `Light.h`,
outside the translated sources. Its four enumerators (the closed light-variant set) are kept
as a table of their integer values. -/
structure LightType where
  GLOBAL : Int
  POINT : Int
  DIRECTIONAL : Int
  HEMISPHERE : Int

/-- The three `case` labels of the `switch` in `SetupShaderLighting` are distinct constants
(C++ rejects a `switch` with duplicate labels). -/
def LightType.DistinctCases (E : LightType) : Prop :=
  E.POINT ≠ E.DIRECTIONAL ∧ E.POINT ≠ E.HEMISPHERE ∧ E.DIRECTIONAL ≠ E.HEMISPHERE

instance (E : LightType) : Decidable E.DistinctCases := by
  unfold LightType.DistinctCases; infer_instance

/-- The structure `EpicLightProperties`, together with the one member of its base
`LightProperties` that the shader reads (`diffuseColor`). -/
structure EpicLightProperties where
  diffuseColor : vec4
  radius : GLfloat
  direction : vec4
  skyColor : vec4
  groundColor : vec4

/-- Modelled from the spec: what the shader asks of a `Light` (declared in `Light.h`): its
type tag, its properties, its forward direction, the triple `GetAttenuation` stores in its three
reference parameters, and the uniforms its own `SetupShaderUniforms` hook pushes, in order. -/
structure Light where
  GetLightType : Int
  GetPropertiesRaw : EpicLightProperties
  GetForwardDirection : vec4
  GetAttenuation : GLfloat × GLfloat × GLfloat
  SetupShaderUniforms : List (String × UniformValue)

/-- Running the light's hook `light->SetupShaderUniforms(this)`. -/
def runShaderUniforms : List (String × UniformValue) → GLState → GLState
  | [], gl => gl
  | (name, value) :: rest, gl => runShaderUniforms rest (SetShaderUniform name value gl)

/-- Member `EpicShader::UpdateAttenuationUniforms`. -/
def UpdateAttenuationUniforms (light : Option Light) (gl : GLState) : GLState :=
  let att : GLfloat × GLfloat × GLfloat :=
    match light with
    | none => (float_1, float_0, float_0)
    | some l => l.GetAttenuation
  SetShaderUniform "quadraticAttenuation" (.float att.2.2)
    (SetShaderUniform "linearAttenuation" (.float att.2.1)
      (SetShaderUniform "constantAttenuation" (.float att.1) gl))

/-- The text the `default` arm of the `switch` writes to `std::cerr`. -/
def unsupportedLightWarning (tag : Int) : String :=
  "WARNING: Light type is not supported. Defaulting to global light. Your output may look wrong. -- Ignoring: "
    ++ toString tag

/-- The `switch (light->GetLightType())` of `SetupShaderLighting`, in the configuration the
file compiles (`DISABLE_OPENGL_SUBROUTINES` defined). -/
def lightingSwitch (E : LightType) (l : Light) (gl : GLState) : GLState :=
  if l.GetLightType = E.POINT then
    SetShaderUniform "pointLight.radius" (.float l.GetPropertiesRaw.radius)
      (SetShaderUniform "lightingType" (.int E.POINT) gl)
  else if l.GetLightType = E.DIRECTIONAL then
    SetShaderUniform "directionalLight.direction" (.vec4 l.GetForwardDirection)
      (SetShaderUniform "lightingType" (.int E.DIRECTIONAL) gl)
  else if l.GetLightType = E.HEMISPHERE then
    SetShaderUniform "hemisphereLight.cground" (.vec4 l.GetPropertiesRaw.groundColor)
      (SetShaderUniform "hemisphereLight.csky" (.vec4 l.GetPropertiesRaw.skyColor)
        (SetShaderUniform "lightingType" (.int E.HEMISPHERE) gl))
  else
    SetShaderUniform "lightingType" (.int E.GLOBAL)
      (cerrLine (unsupportedLightWarning l.GetLightType) gl)

/-- Member `EpicShader::SetupShaderLighting`. -/
def SetupShaderLighting (E : LightType) (light : Option Light) (gl : GLState) : GLState :=
  match light with
  | none =>
    UpdateAttenuationUniforms none (SetShaderUniform "lightingType" (.int E.GLOBAL) gl)
  | some l =>
    UpdateAttenuationUniforms (some l)
      (runShaderUniforms l.SetupShaderUniforms
        (SetShaderUniform "genericLight.color" (.vec4 l.GetPropertiesRaw.diffuseColor)
          (lightingSwitch E l gl)))

/-! ## Texture slots -/

/-- The tail of `SetupShaderMaterials`: the four texture-unit uniforms and `maxDisplacement`. -/
def EpicShader.textureUnitUniforms (SPECULAR : Int) (s : EpicShader) (gl : GLState) : GLState :=
  SetShaderUniform "maxDisplacement" (.float s.maxDisplacement)
    (SetShaderUniform "displacementTexture" (.int TextureSlots.DISPLACEMENT)
      (SetShaderUniform "normalTexture" (.int TextureSlots.NORMAL)
        (SetShaderUniform "specularTexture" (.int SPECULAR)
          (SetShaderUniform "diffuseTexture" (.int TextureSlots.DIFFUSE) gl))))

/-- An always-bound slot of `SetupShaderMaterials`: start from `defaultTexture.get()`, take
the slot's entry when the key is present, `assert` the pointer, bind it on the slot's unit. -/
def EpicShader.bindRequired (s : EpicShader) (slot : Int) (gl : GLState) : Except Fault GLState :=
  let texture : Option Texture :=
    match s.textureSlotMapping slot with
    | some p => p
    | none => s.defaultTexture
  match texture with
  | none => .error .assertionFailed
  | some t => .ok (t.BeginRender slot gl)

/-- An optional slot of `SetupShaderMaterials`: bind the entry and raise the flag when the key
is present (dereferencing the stored pointer), lower the flag otherwise. -/
def EpicShader.bindOptional (s : EpicShader) (slot : Int) (flag : String) (gl : GLState) :
    Except Fault GLState :=
  match s.textureSlotMapping slot with
  | some p =>
    match p with
    | none => .error .nullDereference
    | some t => .ok (SetShaderUniform flag (.int 1) (t.BeginRender slot gl))
  | none => .ok (SetShaderUniform flag (.int 0) gl)

/-- Member `EpicShader::SetupShaderMaterials`. -/
def EpicShader.SetupShaderMaterials (SPECULAR : Int) (s : EpicShader) (gl : GLState) :
    Except Fault GLState :=
  let gl0 := glBindBufferBase MATERIAL_BINDING_POINT s.materialBuffer gl
  match s.bindRequired TextureSlots.DIFFUSE gl0 with
  | .error e => .error e
  | .ok gl1 =>
    match s.bindRequired SPECULAR gl1 with
    | .error e => .error e
    | .ok gl2 =>
      match s.bindOptional TextureSlots.NORMAL "useNormalTexture" gl2 with
      | .error e => .error e
      | .ok gl3 =>
        match s.bindOptional TextureSlots.DISPLACEMENT "useDisplacementTexture" gl3 with
        | .error e => .error e
        | .ok gl4 => .ok (s.textureUnitUniforms SPECULAR gl4)

/-! ## Import of an assimp material -/

/-- Modelled from the spec: the imported material description (`aiMaterial`, assimp). For each
key the shader reads, the value `Get` stores through the pointer it is given (`none` when the
key is absent and the destination is left as it was), and the texture paths per type. -/
structure aiMaterial where
  COLOR_DIFFUSE : Option GLfloat
  COLOR_SPECULAR : Option GLfloat
  SHININESS : Option GLfloat
  COLOR_AMBIENT : Option vec4
  texturesDIFFUSE : List String
  texturesSPECULAR : List String

/-- Call `assimpMaterial->Get(key, &dst, nullptr)`. -/
def aiGet {α : Type} (property : Option α) (dst : α) : α :=
  match property with
  | some v => v
  | none => dst

/-- One of the two texture blocks of `LoadMaterialFromAssimp`: when the material has a
texture of the type, load the first path and install the result in `slot`. -/
def EpicShader.importTexture (LoadTexture : String → Option Texture) (paths : List String)
    (slot : Int) (s : EpicShader) : EpicShader :=
  match paths with
  | [] => s
  | path :: _ => s.SetTexture slot (LoadTexture path)

/-- Member `EpicShader::LoadMaterialFromAssimp`. `LoadTexture` is
`TextureLoader::LoadTexture` (empty handle when the file cannot be loaded). -/
def EpicShader.LoadMaterialFromAssimp (SPECULAR : Int) (LoadTexture : String → Option Texture)
    (assimpMaterial : Option aiMaterial) (s : EpicShader) (gl : GLState) :
    Except Fault (EpicShader × GLState) :=
  match assimpMaterial with
  | none => .ok (s, gl)
  | some m =>
    let s1 : EpicShader :=
      { s with
        roughness := aiGet m.COLOR_DIFFUSE s.roughness
        specular := aiGet m.COLOR_SPECULAR s.specular
        metallic := aiGet m.SHININESS s.metallic
        ambient := aiGet m.COLOR_AMBIENT s.ambient }
    let s2 := s1.importTexture LoadTexture m.texturesDIFFUSE TextureSlots.DIFFUSE
    let s3 := s2.importTexture LoadTexture m.texturesSPECULAR SPECULAR
    s3.UpdateMaterialBlock gl

/-! ## Sequences of calls -/

/-- The four material setters. -/
inductive MaterialSetter where
  | SetRoughness (v : GLfloat)
  | SetSpecular (v : GLfloat)
  | SetMetallic (v : GLfloat)
  | SetAmbient (v : vec4)

/-- Performing one setter call. -/
def MaterialSetter.run (c : MaterialSetter) (s : EpicShader) (gl : GLState) :
    Except Fault (EpicShader × GLState) :=
  match c with
  | .SetRoughness v => s.SetRoughness v gl
  | .SetSpecular v => s.SetSpecular v gl
  | .SetMetallic v => s.SetMetallic v gl
  | .SetAmbient v => s.SetAmbient v gl

/-- Performing a sequence of setter calls, first call first. -/
def runSetters : List MaterialSetter → EpicShader → GLState → Except Fault (EpicShader × GLState)
  | [], s, gl => .ok (s, gl)
  | c :: cs, s, gl =>
    match c.run s gl with
    | .error e => .error e
    | .ok (s1, gl1) => runSetters cs s1 gl1

/-- The roughness most recently set by a sequence of calls, `d` when none sets it. -/
def lastRoughness (d : GLfloat) : List MaterialSetter → GLfloat
  | [] => d
  | .SetRoughness v :: cs => lastRoughness v cs
  | _ :: cs => lastRoughness d cs

/-- The specular most recently set by a sequence of calls, `d` when none sets it. -/
def lastSpecular (d : GLfloat) : List MaterialSetter → GLfloat
  | [] => d
  | .SetSpecular v :: cs => lastSpecular v cs
  | _ :: cs => lastSpecular d cs

/-- The metallic most recently set by a sequence of calls, `d` when none sets it. -/
def lastMetallic (d : GLfloat) : List MaterialSetter → GLfloat
  | [] => d
  | .SetMetallic v :: cs => lastMetallic v cs
  | _ :: cs => lastMetallic d cs

/-- The calls that change the texture slot table. -/
inductive TextureCall where
  | SetTexture (slot : Int) (inputTexture : Option Texture)
  | LoadMaterialFromAssimp (assimpMaterial : Option aiMaterial)

/-- Performing one texture-table call. -/
def TextureCall.run (SPECULAR : Int) (LoadTexture : String → Option Texture) (c : TextureCall)
    (s : EpicShader) (gl : GLState) : Except Fault (EpicShader × GLState) :=
  match c with
  | .SetTexture slot t => .ok (s.SetTexture slot t, gl)
  | .LoadMaterialFromAssimp m => s.LoadMaterialFromAssimp SPECULAR LoadTexture m gl

/-- Performing a sequence of texture-table calls, first call first. -/
def runTextureCalls (SPECULAR : Int) (LoadTexture : String → Option Texture) :
    List TextureCall → EpicShader → GLState → Except Fault (EpicShader × GLState)
  | [], s, gl => .ok (s, gl)
  | c :: cs, s, gl =>
    match c.run SPECULAR LoadTexture s gl with
    | .error e => .error e
    | .ok (s1, gl1) => runTextureCalls SPECULAR LoadTexture cs s1 gl1

/-- A layout as the first testable property takes it: each of the three resolved offsets
addresses four bytes inside the staging buffer, and the three ranges are pairwise disjoint. -/
def LayoutOK (offsets : Fin 3 → Int) (storage : List GLubyte) : Prop :=
  (∀ i : Fin 3, 0 ≤ offsets i ∧ offsets i + 4 ≤ (storage.length : Int)) ∧
  (∀ i j : Fin 3, i ≠ j → offsets i + 4 ≤ offsets j ∨ offsets j + 4 ≤ offsets i)

instance (offsets : Fin 3 → Int) (storage : List GLubyte) :
    Decidable (LayoutOK offsets storage) := by
  unfold LayoutOK; infer_instance

/-- The member a setter assigns, as an index into `materialOffsets` (`none` for
`SetAmbient`, whose member has no entry in `MATERIAL_PROPERTY_NAMES`). -/
def MaterialSetter.field : MaterialSetter → Option (Fin 3)
  | .SetRoughness _ => some 0
  | .SetSpecular _ => some 1
  | .SetMetallic _ => some 2
  | .SetAmbient _ => none

/-- Construction followed by a sequence of setter calls. -/
def constructThenSet (program : GLuint) (lightingStage : GLenum) (uninit : Fin 3 → GLint)
    (setup : UniformBlockSetup) (loaded : Option Texture) (gl : GLState)
    (calls : List MaterialSetter) : Except Fault (EpicShader × GLState) :=
  match EpicShader.ctor program lightingStage uninit setup loaded gl with
  | .error e => .error e
  | .ok (s, gl1) => runSetters calls s gl1

/-- The staging storage holds, at each resolved offset, the bytes of the matching member. -/
def EpicShader.InSync (s : EpicShader) : Prop :=
  bytesAt s.materialStorage (s.materialOffsets 0) = s.roughness.raw ∧
  bytesAt s.materialStorage (s.materialOffsets 1) = s.specular.raw ∧
  bytesAt s.materialStorage (s.materialOffsets 2) = s.metallic.raw

/-- Construction followed by one import. -/
def constructThenImport (SPECULAR : Int) (LoadTexture : String → Option Texture)
    (program : GLuint) (lightingStage : GLenum) (uninit : Fin 3 → GLint)
    (setup : UniformBlockSetup) (loaded : Option Texture) (gl : GLState)
    (assimpMaterial : Option aiMaterial) : Except Fault (EpicShader × GLState) :=
  match EpicShader.ctor program lightingStage uninit setup loaded gl with
  | .error e => .error e
  | .ok (s, gl1) => s.LoadMaterialFromAssimp SPECULAR LoadTexture assimpMaterial gl1

/-- The descriptor is disabled: the guard of the upload in `UpdateMaterialBlock` is false. -/
def EpicShader.Disabled (s : EpicShader) : Prop :=
  s.materialBuffer = 0 ∨ s.materialBlockLocation = GL_INVALID_INDEX

instance (s : EpicShader) : Decidable s.Disabled := by
  unfold EpicShader.Disabled; infer_instance

/-- The staging bytes of the packed example right after construction: `2.f`, `0.f`, `0.f`
at offsets 0, 4, 8 and four untouched bytes. -/
def packedBytes : List GLubyte :=
  float_2.raw ++ float_0.raw ++ float_0.raw ++ [0, 0, 0, 0]

/-- A point light of radius 5 with type tag 1, attenuation (1, 0.5, 0) and a hook that
pushes its position. -/
def pointLight5 : Light :=
  { GetLightType := 1
    GetPropertiesRaw :=
      { diffuseColor := ⟨float_1, float_1, float_1, float_1⟩
        radius := float_5
        direction := ⟨float_0, float_0, float_0, float_0⟩
        skyColor := ⟨float_0, float_0, float_0, float_0⟩
        groundColor := ⟨float_0, float_0, float_0, float_0⟩ }
    GetForwardDirection := ⟨float_0, float_0, float_1, float_0⟩
    GetAttenuation := (float_1, float_0_5, float_0)
    SetupShaderUniforms :=
      [("pointLight.pointPosition", .vec4 ⟨float_2, float_2, float_2, float_1⟩)] }

/-- The same light carrying the type tag 7, which is no enumerator. -/
def strangeLight : Light := { pointLight5 with GetLightType := 7 }

/-- Construction, a sequence of texture-table calls, then `SetupShaderMaterials`. -/
def constructThenBind (SPECULAR : Int) (LoadTexture : String → Option Texture)
    (program : GLuint) (lightingStage : GLenum) (uninit : Fin 3 → GLint)
    (setup : UniformBlockSetup) (loaded : Option Texture) (gl : GLState)
    (calls : List TextureCall) : Except Fault GLState :=
  match EpicShader.ctor program lightingStage uninit setup loaded gl with
  | .error e => .error e
  | .ok (s, gl1) =>
    match runTextureCalls SPECULAR LoadTexture calls s gl1 with
    | .error e => .error e
    | .ok (s1, gl2) => s1.SetupShaderMaterials SPECULAR gl2

/-- What `SetupShaderMaterials` leaves on the four texture units and in the two presence
flags. -/
def GLState.textureBindings (SPECULAR : Int) (g : GLState) :
    Option Texture × Option Texture × Option Texture × Option Texture ×
      Option UniformValue × Option UniformValue :=
  (g.textureUnits TextureSlots.DIFFUSE, g.textureUnits SPECULAR,
    g.textureUnits TextureSlots.NORMAL, g.textureUnits TextureSlots.DISPLACEMENT,
    g.uniforms "useNormalTexture", g.uniforms "useDisplacementTexture")

/-- A material whose only content is a diffuse texture path. -/
def diffuseTextureMaterial (path : String) : aiMaterial :=
  { COLOR_DIFFUSE := none
    COLOR_SPECULAR := none
    SHININESS := none
    COLOR_AMBIENT := none
    texturesDIFFUSE := [path]
    texturesSPECULAR := [] }

/-! ## Concrete states used as examples -/

/-- A context in which nothing has been done yet. -/
def GLState.fresh : GLState :=
  { currentProgram := 0
    uniformBufferBinding := 0
    bufferStore := fun _ => none
    indexedBinding := fun _ => 0
    blockBinding := fun _ _ => none
    uniforms := fun _ => none
    textureUnits := fun _ => none
    cerr := []
    bufferDataCalls := 0 }

/-- Offsets 0, 4 and 8. -/
def packedOffsets : Fin 3 → GLint := fun i => 4 * (i.val : Int)

/-- Outcome of a successful `SetupUniformBlock<3>`: a 16-byte block with the three floats at
offsets 0, 4 and 8, block index 0 and buffer object 1. -/
def packedSetup : UniformBlockSetup :=
  { materialOffsets := packedOffsets
    materialStorage := List.replicate 16 0
    materialBlockLocation := 0
    materialBlockSize := 16
    materialBuffer := 1 }

/-- Enumerator values 0, 1, 2, 3. -/
def LightType.standard : LightType := ⟨0, 1, 2, 3⟩

/-- A shader whose default texture (texture object 7) is loaded and whose slot table is
empty. -/
def defaultOnlyShader : EpicShader :=
  { EpicShader.initialiserList 1 0 packedOffsets with defaultTexture := some ⟨7⟩ }

theorem splice_getElem? {α : Type} (st bs : List α) (n k : Nat)
    (h : n + bs.length ≤ st.length) :
    (st.take n ++ bs ++ st.drop (n + bs.length))[k]? =
      if k < n then st[k]? else if k < n + bs.length then bs[k - n]? else st[k]? := by
  have hl : (st.take n).length = n := by simp; omega
  by_cases h1 : k < n
  · simp only [h1, if_true]
    rw [List.append_assoc, List.getElem?_append_left (by omega)]
    rw [List.getElem?_take_of_lt h1]
  · simp only [h1, if_false]
    rw [List.append_assoc, List.getElem?_append_right (by omega), hl]
    by_cases h2 : k < n + bs.length
    · simp only [h2, if_true]
      rw [List.getElem?_append_left (by omega)]
    · simp only [h2, if_false]
      rw [List.getElem?_append_right (by omega), List.getElem?_drop]
      congr 1; omega

theorem window_getElem? {α : Type} (st : List α) (m w k : Nat) :
    ((st.drop m).take w)[k]? = if k < w then st[m + k]? else none := by
  by_cases h : k < w
  · simp only [h, if_true]
    rw [List.getElem?_take_of_lt h, List.getElem?_drop]
  · simp only [h, if_false]
    rw [List.getElem?_eq_none_iff]
    simp; omega

theorem GLfloat.raw_length (v : GLfloat) : v.raw.length = 4 := rfl

theorem memcpyFloat_ok (st : List GLubyte) (o : Int) (v : GLfloat)
    (h0 : 0 ≤ o) (h1 : o + 4 ≤ (st.length : Int)) :
    memcpyFloat st o v = .ok (st.take o.toNat ++ v.raw ++ st.drop (o.toNat + 4)) := by
  unfold memcpyFloat
  rw [if_pos ⟨h0, h1⟩]

theorem memcpyFloat_error (st : List GLubyte) (o : Int) (v : GLfloat)
    (h : ¬ (0 ≤ o ∧ o + 4 ≤ (st.length : Int))) :
    memcpyFloat st o v = .error .outOfBounds := by
  unfold memcpyFloat
  rw [if_neg h]

theorem splice_length (st : List GLubyte) (n : Nat) (v : GLfloat) (h : n + 4 ≤ st.length) :
    (st.take n ++ v.raw ++ st.drop (n + 4)).length = st.length := by
  simp [GLfloat.raw]
  omega

theorem bytesAt_splice_same (st : List GLubyte) (o : Int) (v : GLfloat)
    (h0 : 0 ≤ o) (h1 : o + 4 ≤ (st.length : Int)) :
    bytesAt (st.take o.toNat ++ v.raw ++ st.drop (o.toNat + 4)) o = v.raw := by
  have hn : o.toNat + v.raw.length ≤ st.length := by rw [GLfloat.raw_length]; omega
  unfold bytesAt
  apply List.ext_getElem?
  intro k
  rw [window_getElem?]
  have hs := splice_getElem? st v.raw o.toNat (o.toNat + k) hn
  rw [GLfloat.raw_length] at hs
  by_cases hk : k < 4
  · rw [if_pos hk, hs, if_neg (by omega), if_pos (by omega)]
    congr 1; omega
  · rw [if_neg hk]
    symm
    rw [List.getElem?_eq_none_iff, GLfloat.raw_length]
    omega

theorem bytesAt_splice_other (st : List GLubyte) (o p : Int) (v : GLfloat)
    (h0 : 0 ≤ o) (h1 : o + 4 ≤ (st.length : Int)) (hp : 0 ≤ p)
    (hd : p + 4 ≤ o ∨ o + 4 ≤ p) :
    bytesAt (st.take o.toNat ++ v.raw ++ st.drop (o.toNat + 4)) p = bytesAt st p := by
  have hn : o.toNat + v.raw.length ≤ st.length := by rw [GLfloat.raw_length]; omega
  unfold bytesAt
  apply List.ext_getElem?
  intro k
  rw [window_getElem?, window_getElem?]
  have hs := splice_getElem? st v.raw o.toNat (p.toNat + k) hn
  rw [GLfloat.raw_length] at hs
  by_cases hk : k < 4
  · rw [if_pos hk, if_pos hk, hs]
    rcases hd with hd | hd
    · rw [if_pos (by omega)]
    · rw [if_neg (by omega), if_neg (by omega)]
  · rw [if_neg hk, if_neg hk]

theorem memcpyFloat_spec (st : List GLubyte) (o : Int) (v : GLfloat)
    (h0 : 0 ≤ o) (h1 : o + 4 ≤ (st.length : Int)) :
    ∃ st1, memcpyFloat st o v = .ok st1 ∧ st1.length = st.length ∧ bytesAt st1 o = v.raw ∧
      ∀ p : Int, 0 ≤ p → (p + 4 ≤ o ∨ o + 4 ≤ p) → bytesAt st1 p = bytesAt st p :=
  ⟨_, memcpyFloat_ok st o v h0 h1, splice_length st o.toNat v (by omega),
    bytesAt_splice_same st o v h0 h1,
    fun p hp hd => bytesAt_splice_other st o p v h0 h1 hp hd⟩

/-! ## The material block under a well-formed layout -/

theorem UpdateMaterialBlock_of_layout (s : EpicShader) (gl : GLState)
    (h : LayoutOK s.materialOffsets s.materialStorage) :
    ∃ st, s.UpdateMaterialBlock gl =
        .ok ({ s with materialStorage := st },
          EpicShader.StopUseShader { s with materialStorage := st }
            (EpicShader.uploadMaterialBlock { s with materialStorage := st }
              (s.StartUseShader gl))) ∧
      st.length = s.materialStorage.length ∧
      bytesAt st (s.materialOffsets 0) = s.roughness.raw ∧
      bytesAt st (s.materialOffsets 1) = s.specular.raw ∧
      bytesAt st (s.materialOffsets 2) = s.metallic.raw := by
  obtain ⟨hb, hd⟩ := h
  obtain ⟨hb0, hc0⟩ := hb 0
  obtain ⟨hb1, hc1⟩ := hb 1
  obtain ⟨hb2, hc2⟩ := hb 2
  have d01 := hd 0 1 (by decide)
  have d02 := hd 0 2 (by decide)
  have d12 := hd 1 2 (by decide)
  obtain ⟨st1, e1, l1, r1, -⟩ :=
    memcpyFloat_spec s.materialStorage (s.materialOffsets 0) s.roughness hb0 hc0
  obtain ⟨st2, e2, l2, r2, f2⟩ :=
    memcpyFloat_spec st1 (s.materialOffsets 1) s.specular hb1 (by rw [l1]; exact hc1)
  obtain ⟨st3, e3, l3, r3, f3⟩ :=
    memcpyFloat_spec st2 (s.materialOffsets 2) s.metallic hb2 (by rw [l2, l1]; exact hc2)
  refine ⟨st3, ?_, by rw [l3, l2, l1], ?_, ?_, r3⟩
  · unfold EpicShader.UpdateMaterialBlock
    simp only [e1, e2, e3]
  · rw [f3 _ hb0 d02, f2 _ hb0 d01, r1]
  · rw [f3 _ hb1 d12, r2]

theorem UpdateMaterialBlock_preserves (s : EpicShader) (gl : GLState)
    (h : LayoutOK s.materialOffsets s.materialStorage) :
    ∃ s1 gl1, s.UpdateMaterialBlock gl = .ok (s1, gl1) ∧
      LayoutOK s1.materialOffsets s1.materialStorage ∧ s1.InSync ∧
      s1.materialOffsets = s.materialOffsets ∧
      s1.roughness = s.roughness ∧ s1.specular = s.specular ∧ s1.metallic = s.metallic := by
  obtain ⟨st, e, l, r0, r1, r2⟩ := UpdateMaterialBlock_of_layout s gl h
  refine ⟨_, _, e, ?_, ⟨r0, r1, r2⟩, rfl, rfl, rfl, rfl⟩
  unfold LayoutOK at h ⊢
  simp only [l]
  exact h

theorem MaterialSetter.run_preserves (c : MaterialSetter) (s : EpicShader) (gl : GLState)
    (h : LayoutOK s.materialOffsets s.materialStorage) :
    ∃ s1 gl1, c.run s gl = .ok (s1, gl1) ∧
      LayoutOK s1.materialOffsets s1.materialStorage ∧ s1.InSync ∧
      s1.materialOffsets = s.materialOffsets ∧
      s1.roughness = lastRoughness s.roughness [c] ∧
      s1.specular = lastSpecular s.specular [c] ∧
      s1.metallic = lastMetallic s.metallic [c] := by
  cases c with
  | SetRoughness v =>
    exact UpdateMaterialBlock_preserves { s with roughness := v } gl h
  | SetSpecular v =>
    exact UpdateMaterialBlock_preserves { s with specular := v } gl h
  | SetMetallic v =>
    exact UpdateMaterialBlock_preserves { s with metallic := v } gl h
  | SetAmbient v =>
    exact UpdateMaterialBlock_preserves { s with ambient := v } gl h

theorem lastRoughness_cons (d : GLfloat) (c : MaterialSetter) (cs : List MaterialSetter) :
    lastRoughness d (c :: cs) = lastRoughness (lastRoughness d [c]) cs := by
  cases c <;> rfl

theorem lastSpecular_cons (d : GLfloat) (c : MaterialSetter) (cs : List MaterialSetter) :
    lastSpecular d (c :: cs) = lastSpecular (lastSpecular d [c]) cs := by
  cases c <;> rfl

theorem lastMetallic_cons (d : GLfloat) (c : MaterialSetter) (cs : List MaterialSetter) :
    lastMetallic d (c :: cs) = lastMetallic (lastMetallic d [c]) cs := by
  cases c <;> rfl

theorem runSetters_preserves (cs : List MaterialSetter) :
    ∀ (s : EpicShader) (gl : GLState),
      LayoutOK s.materialOffsets s.materialStorage → s.InSync →
      ∃ s1 gl1, runSetters cs s gl = .ok (s1, gl1) ∧
        LayoutOK s1.materialOffsets s1.materialStorage ∧ s1.InSync ∧
        s1.materialOffsets = s.materialOffsets ∧
        s1.roughness = lastRoughness s.roughness cs ∧
        s1.specular = lastSpecular s.specular cs ∧
        s1.metallic = lastMetallic s.metallic cs := by
  induction cs with
  | nil =>
    intro s gl h hs
    exact ⟨s, gl, rfl, h, hs, rfl, rfl, rfl, rfl⟩
  | cons c cs ih =>
    intro s gl h _
    obtain ⟨s1, gl1, e1, h1, hs1, o1, a1, b1, c1⟩ := c.run_preserves s gl h
    obtain ⟨s2, gl2, e2, h2, hs2, o2, a2, b2, c2⟩ := ih s1 gl1 h1 hs1
    refine ⟨s2, gl2, ?_, h2, hs2, o2.trans o1, ?_, ?_, ?_⟩
    · simp only [runSetters, e1, e2]
    · rw [a2, a1, ← lastRoughness_cons]
    · rw [b2, b1, ← lastSpecular_cons]
    · rw [c2, c1, ← lastMetallic_cons]

theorem runSetters_append (cs : List MaterialSetter) (c : MaterialSetter) :
    ∀ (s : EpicShader) (gl : GLState),
      runSetters (cs ++ [c]) s gl =
        match runSetters cs s gl with
        | .error e => .error e
        | .ok (s1, gl1) => c.run s1 gl1 := by
  induction cs with
  | nil =>
    intro s gl
    simp only [List.nil_append, runSetters]
    cases c.run s gl with
    | error e => rfl
    | ok r => rfl
  | cons d cs ih =>
    intro s gl
    simp only [List.cons_append, runSetters]
    cases d.run s gl with
    | error e => rfl
    | ok r => exact ih r.1 r.2

theorem lastRoughness_append (cs : List MaterialSetter) (c : MaterialSetter) :
    ∀ d : GLfloat, c.field ≠ some 0 → lastRoughness d (cs ++ [c]) = lastRoughness d cs := by
  induction cs with
  | nil => intro d h; cases c <;> first | rfl | exact absurd rfl h
  | cons a cs ih =>
    intro d h
    rw [List.cons_append, lastRoughness_cons, lastRoughness_cons d a cs, ih _ h]

theorem lastSpecular_append (cs : List MaterialSetter) (c : MaterialSetter) :
    ∀ d : GLfloat, c.field ≠ some 1 → lastSpecular d (cs ++ [c]) = lastSpecular d cs := by
  induction cs with
  | nil => intro d h; cases c <;> first | rfl | exact absurd rfl h
  | cons a cs ih =>
    intro d h
    rw [List.cons_append, lastSpecular_cons, lastSpecular_cons d a cs, ih _ h]

theorem lastMetallic_append (cs : List MaterialSetter) (c : MaterialSetter) :
    ∀ d : GLfloat, c.field ≠ some 2 → lastMetallic d (cs ++ [c]) = lastMetallic d cs := by
  induction cs with
  | nil => intro d h; cases c <;> first | rfl | exact absurd rfl h
  | cons a cs ih =>
    intro d h
    rw [List.cons_append, lastMetallic_cons, lastMetallic_cons d a cs, ih _ h]

theorem ctor_of_layout (program : GLuint) (lightingStage : GLenum) (uninit : Fin 3 → GLint)
    (setup : UniformBlockSetup) (loaded : Option Texture) (gl : GLState)
    (hprogram : program ≠ 0)
    (hlayout : LayoutOK setup.materialOffsets setup.materialStorage) :
    ∃ s gl1, EpicShader.ctor program lightingStage uninit setup loaded gl = .ok (s, gl1) ∧
      LayoutOK s.materialOffsets s.materialStorage ∧ s.InSync ∧
      s.materialOffsets = setup.materialOffsets ∧
      s.roughness = float_2 ∧ s.specular = float_0 ∧ s.metallic = float_0 ∧
      s.defaultTexture = loaded ∧ s.textureSlotMapping = fun _ => none := by
  obtain ⟨st, e, l, r0, r1, r2⟩ := UpdateMaterialBlock_of_layout
    ((EpicShader.initialiserList program lightingStage uninit).SetupUniformBlock setup) gl hlayout
  have hl : LayoutOK setup.materialOffsets st := by
    unfold LayoutOK at hlayout ⊢
    rw [l]
    exact hlayout
  unfold EpicShader.ctor
  simp only [if_neg hprogram, e]
  cases loaded with
  | none => exact ⟨_, _, rfl, hl, ⟨r0, r1, r2⟩, rfl, rfl, rfl, rfl, rfl, rfl⟩
  | some t => exact ⟨_, _, rfl, hl, ⟨r0, r1, r2⟩, rfl, rfl, rfl, rfl, rfl, rfl⟩

theorem constructThenSet_of_layout (program : GLuint) (lightingStage : GLenum)
    (uninit : Fin 3 → GLint) (setup : UniformBlockSetup) (loaded : Option Texture)
    (gl : GLState) (calls : List MaterialSetter) (hprogram : program ≠ 0)
    (hlayout : LayoutOK setup.materialOffsets setup.materialStorage) :
    ∃ s gl1, constructThenSet program lightingStage uninit setup loaded gl calls = .ok (s, gl1) ∧
      bytesAt s.materialStorage (setup.materialOffsets 0) = (lastRoughness float_2 calls).raw ∧
      bytesAt s.materialStorage (setup.materialOffsets 1) = (lastSpecular float_0 calls).raw ∧
      bytesAt s.materialStorage (setup.materialOffsets 2) = (lastMetallic float_0 calls).raw := by
  obtain ⟨s0, gl0, e0, hl, hs, ho, hr, hsp, hm, -, -⟩ :=
    ctor_of_layout program lightingStage uninit setup loaded gl hprogram hlayout
  obtain ⟨s1, gl1, e1, -, hs1, ho1, a1, b1, c1⟩ := runSetters_preserves calls s0 gl0 hl hs
  refine ⟨s1, gl1, ?_, ?_, ?_, ?_⟩
  · unfold constructThenSet
    simp only [e0, e1]
  · rw [← ho, ← ho1, hs1.1, a1, hr]
  · rw [← ho, ← ho1, hs1.2.1, b1, hsp]
  · rw [← ho, ← ho1, hs1.2.2, c1, hm]

/-! ## C1 -/

/-- C1: for every layout whose three resolved offsets address pairwise disjoint four-byte
ranges inside the staging buffer, and every finite sequence of `SetRoughness`, `SetSpecular`,
`SetMetallic` and `SetAmbient` calls made after construction, the calls all return and the
four staging bytes at each resolved offset are the raw bytes of the value most recently set for
that member (the constructor default `2.f`, `0.f`, `0.f` when it was never set); and one more
setter call leaves the bytes at the offset of every member it does not assign as they were. -/
theorem C1_staging_bytes_follow_latest_setter (program : GLuint) (lightingStage : GLenum)
    (uninit : Fin 3 → GLint) (setup : UniformBlockSetup) (loaded : Option Texture)
    (gl : GLState) (calls : List MaterialSetter) (hprogram : program ≠ 0)
    (hlayout : LayoutOK setup.materialOffsets setup.materialStorage) :
    (constructThenSet program lightingStage uninit setup loaded gl calls).map
        (fun r => (bytesAt r.1.materialStorage (setup.materialOffsets 0),
          bytesAt r.1.materialStorage (setup.materialOffsets 1),
          bytesAt r.1.materialStorage (setup.materialOffsets 2))) =
      .ok ((lastRoughness float_2 calls).raw, (lastSpecular float_0 calls).raw,
        (lastMetallic float_0 calls).raw) ∧
    ∀ (c : MaterialSetter) (i : Fin 3), c.field ≠ some i →
      (constructThenSet program lightingStage uninit setup loaded gl (calls ++ [c])).map
          (fun r => bytesAt r.1.materialStorage (setup.materialOffsets i)) =
        (constructThenSet program lightingStage uninit setup loaded gl calls).map
          (fun r => bytesAt r.1.materialStorage (setup.materialOffsets i)) := by
  obtain ⟨s, gl1, e, h0, h1, h2⟩ :=
    constructThenSet_of_layout program lightingStage uninit setup loaded gl calls hprogram hlayout
  refine ⟨?_, ?_⟩
  · rw [e]
    simp only [Except.map, h0, h1, h2]
  · intro c i hne
    obtain ⟨s', gl', e', k0, k1, k2⟩ :=
      constructThenSet_of_layout program lightingStage uninit setup loaded gl (calls ++ [c])
        hprogram hlayout
    rw [e, e']
    simp only [Except.map]
    have hi : i = 0 ∨ i = 1 ∨ i = 2 := by
      fin_cases i <;> simp
    rcases hi with rfl | rfl | rfl
    · rw [k0, h0, lastRoughness_append calls c _ hne]
    · rw [k1, h1, lastSpecular_append calls c _ hne]
    · rw [k2, h2, lastMetallic_append calls c _ hne]

/-- C1 at a concrete layout (offsets 0, 4, 8 in a 16-byte block) and a concrete sequence of
four calls. -/
theorem C1_staging_bytes_follow_latest_setter_witness :
    ((1 : GLuint) ≠ 0 ∧ LayoutOK packedSetup.materialOffsets packedSetup.materialStorage) ∧
    ((constructThenSet 1 0 packedOffsets packedSetup (some ⟨7⟩) GLState.fresh
        [.SetRoughness float_0_5, .SetAmbient ⟨float_1, float_1, float_1, float_1⟩,
          .SetMetallic float_1, .SetRoughness float_5]).map
        (fun r => (bytesAt r.1.materialStorage (packedSetup.materialOffsets 0),
          bytesAt r.1.materialStorage (packedSetup.materialOffsets 1),
          bytesAt r.1.materialStorage (packedSetup.materialOffsets 2))) =
      .ok ((lastRoughness float_2
          [.SetRoughness float_0_5, .SetAmbient ⟨float_1, float_1, float_1, float_1⟩,
            .SetMetallic float_1, .SetRoughness float_5]).raw,
        (lastSpecular float_0
          [.SetRoughness float_0_5, .SetAmbient ⟨float_1, float_1, float_1, float_1⟩,
            .SetMetallic float_1, .SetRoughness float_5]).raw,
        (lastMetallic float_0
          [.SetRoughness float_0_5, .SetAmbient ⟨float_1, float_1, float_1, float_1⟩,
            .SetMetallic float_1, .SetRoughness float_5]).raw)) :=
  ⟨⟨by decide, by decide⟩,
    (C1_staging_bytes_follow_latest_setter 1 0 packedOffsets packedSetup (some ⟨7⟩)
      GLState.fresh _ (by decide) (by decide)).1⟩

/-! ## C2 -/

theorem SetAmbient_ignores_value (v w : vec4) (s : EpicShader) (gl : GLState) :
    (s.SetAmbient v gl).map (fun r => (r.1.materialStorage, r.2.bufferStore)) =
      (s.SetAmbient w gl).map (fun r => (r.1.materialStorage, r.2.bufferStore)) := by
  unfold EpicShader.SetAmbient EpicShader.UpdateMaterialBlock
  simp only
  cases memcpyFloat s.materialStorage (s.materialOffsets 0) s.roughness with
  | error e => rfl
  | ok st1 =>
    simp only
    cases memcpyFloat st1 (s.materialOffsets 1) s.specular with
    | error e => rfl
    | ok st2 =>
      simp only
      cases memcpyFloat st2 (s.materialOffsets 2) s.metallic with
      | error e => rfl
      | ok st3 => rfl

/-- C2 (evaluation at the failing input): on a shader constructed over a resolved 16-byte
block (offsets 0, 4, 8, buffer object 1), `SetAmbient(v)` returns with `ambient = v`, but the
staging buffer and the data store uploaded to buffer 1 are the bytes of roughness, specular
and metallic only, whatever `v` is; for `v = (0.5, 0.5, 0.5, 1)` the sixteen bytes of `v` occur
nowhere in them. -/
theorem C2_SetAmbient_never_marshals_ambient :
    (∀ v : vec4,
      (constructThenSet 1 0 packedOffsets packedSetup (some ⟨7⟩) GLState.fresh
          [.SetAmbient v]).map
          (fun r => (r.1.ambient, r.1.materialStorage, r.2.bufferStore 1)) =
        .ok (v, packedBytes, some packedBytes)) ∧
    ¬ (vec4.raw ⟨float_0_5, float_0_5, float_0_5, float_1⟩ <:+: packedBytes) := by
  refine ⟨fun v => rfl, ?_⟩
  decide

/-! ## C3 and C4 -/

theorem UpdateMaterialBlock_empty_storage (s : EpicShader) (gl : GLState)
    (h : s.materialStorage = []) : s.UpdateMaterialBlock gl = .error .outOfBounds := by
  have e : memcpyFloat s.materialStorage (s.materialOffsets 0) s.roughness =
      .error .outOfBounds := by
    apply memcpyFloat_error
    rw [h]
    simp only [List.length_nil, Int.Nat.cast_ofNat_Int]
    omega
  unfold EpicShader.UpdateMaterialBlock
  simp only [e]

theorem MaterialSetter.run_empty_storage (c : MaterialSetter) (s : EpicShader) (gl : GLState)
    (h : s.materialStorage = []) : c.run s gl = .error .outOfBounds := by
  cases c <;> exact UpdateMaterialBlock_empty_storage _ gl h

theorem uploadMaterialBlock_disabled (s : EpicShader) (gl : GLState) (h : s.Disabled) :
    s.uploadMaterialBlock gl = gl := by
  unfold EpicShader.uploadMaterialBlock
  rw [if_neg]
  intro hc
  rcases h with h | h
  · exact hc.1 h
  · exact hc.2 h

theorem UpdateMaterialBlock_ok_form (s s1 : EpicShader) (gl gl1 : GLState)
    (e : s.UpdateMaterialBlock gl = .ok (s1, gl1)) :
    s1 = { s with materialStorage := s1.materialStorage } ∧
      gl1 = s1.StopUseShader (s1.uploadMaterialBlock (s.StartUseShader gl)) := by
  unfold EpicShader.UpdateMaterialBlock at e
  simp only at e
  split at e
  · cases e
  · split at e
    · cases e
    · split at e
      · cases e
      · injection e with e
        injection e with e1 e2
        subst e1 e2
        exact ⟨rfl, rfl⟩

/-- With a disabled descriptor, an `UpdateMaterialBlock` that completes issues no buffer
command: the context differs from the one before only in the current program. -/
theorem UpdateMaterialBlock_disabled_no_upload (s s1 : EpicShader) (gl gl1 : GLState)
    (h : s.Disabled) (e : s.UpdateMaterialBlock gl = .ok (s1, gl1)) :
    gl1 = { gl with currentProgram := 0 } := by
  obtain ⟨f1, f2⟩ := UpdateMaterialBlock_ok_form s s1 gl gl1 e
  have h1 : s1.Disabled := by
    rw [f1]
    exact h
  rw [f2, uploadMaterialBlock_disabled s1 _ h1]
  rfl

/-- C3 (evaluation at the failing input): a shader whose program failed to compile or link
(handle 0) leaves the constructor with an empty staging buffer and a disabled descriptor; for
each of the three offsets, whatever value it holds, `offset + sizeof(float) <= size` is false;
and every setter call made next runs into the out-of-bounds branch of its first staging
write. -/
theorem C3_disabled_state_staging_write_out_of_bounds (lightingStage : GLenum)
    (uninit : Fin 3 → GLint) (setup : UniformBlockSetup) (loaded : Option Texture)
    (gl : GLState) (c : MaterialSetter) :
    (EpicShader.ctor 0 lightingStage uninit setup loaded gl).map
        (fun r => (r.1.materialStorage, r.1.materialBlockSize, r.1.materialOffsets)) =
      .ok ([], 0, uninit) ∧
    (∀ i : Fin 3, ¬ (uninit i + 4 ≤ (([] : List GLubyte).length : Int) ∧ 0 ≤ uninit i)) ∧
    constructThenSet 0 lightingStage uninit setup loaded gl [c] = .error .outOfBounds := by
  refine ⟨rfl, ?_, ?_⟩
  · intro i h
    have key : ∀ x : Int, x + 4 ≤ 0 → 0 ≤ x → False := by
      intro x h1 h2
      omega
    exact key (uninit i) h.1 h.2
  · unfold constructThenSet EpicShader.ctor
    simp only [if_true, runSetters]
    rw [MaterialSetter.run_empty_storage c _ gl rfl]

/-- C4 (evaluation at the failing input): in the disabled state the constructor leaves when
the program failed to compile or link (no buffer object: `materialBuffer = 0`), an import of a
present material description, and likewise `SetAmbient`, does not return normally: its staging
write faults before the guard that skips the upload is reached. -/
theorem C4_disabled_state_import_faults (SPECULAR : Int) (LoadTexture : String → Option Texture)
    (lightingStage : GLenum) (uninit : Fin 3 → GLint) (setup : UniformBlockSetup)
    (loaded : Option Texture) (gl : GLState) (m : aiMaterial) (v : vec4) :
    (EpicShader.ctor 0 lightingStage uninit setup loaded gl).map
        (fun r => (r.1.materialBuffer, r.1.materialBlockLocation)) = .ok (0, 0) ∧
    constructThenImport SPECULAR LoadTexture 0 lightingStage uninit setup loaded gl (some m) =
      .error .outOfBounds ∧
    constructThenSet 0 lightingStage uninit setup loaded gl [.SetAmbient v] =
      .error .outOfBounds := by
  refine ⟨rfl, ?_, ?_⟩
  · unfold constructThenImport EpicShader.ctor EpicShader.LoadMaterialFromAssimp
    simp only [if_true]
    apply UpdateMaterialBlock_empty_storage
    cases m with
    | mk d sp sh a td ts =>
      cases td <;> cases ts <;> rfl
  · unfold constructThenSet EpicShader.ctor
    simp only [if_true, runSetters]
    rw [MaterialSetter.run_empty_storage _ _ gl rfl]

/-! ## Light dispatch -/

theorem SetShaderUniform_uniforms (name n : String) (v : UniformValue) (gl : GLState) :
    (SetShaderUniform name v gl).uniforms n = if n = name then some v else gl.uniforms n := rfl

theorem SetShaderUniform_cerr (name : String) (v : UniformValue) (gl : GLState) :
    (SetShaderUniform name v gl).cerr = gl.cerr := rfl

theorem runShaderUniforms_cerr (ws : List (String × UniformValue)) :
    ∀ gl : GLState, (runShaderUniforms ws gl).cerr = gl.cerr := by
  induction ws with
  | nil => intro gl; rfl
  | cons w ws ih =>
    intro gl
    obtain ⟨name, value⟩ := w
    rw [runShaderUniforms, ih, SetShaderUniform_cerr]

theorem runShaderUniforms_uniforms (ws : List (String × UniformValue)) (n : String) :
    ∀ gl : GLState, (∀ w ∈ ws, w.1 ≠ n) →
      (runShaderUniforms ws gl).uniforms n = gl.uniforms n := by
  induction ws with
  | nil => intro gl _; rfl
  | cons w ws ih =>
    intro gl h
    obtain ⟨name, value⟩ := w
    have h1 : name ≠ n := h (name, value) (List.mem_cons_self _ _)
    rw [runShaderUniforms, ih _ (fun w hw => h w (List.mem_cons_of_mem _ hw)),
      SetShaderUniform_uniforms, if_neg (fun e => h1 e.symm)]

theorem UpdateAttenuationUniforms_cerr (light : Option Light) (gl : GLState) :
    (UpdateAttenuationUniforms light gl).cerr = gl.cerr := rfl

theorem UpdateAttenuationUniforms_other (light : Option Light) (gl : GLState) (n : String)
    (h1 : n ≠ "constantAttenuation") (h2 : n ≠ "linearAttenuation")
    (h3 : n ≠ "quadraticAttenuation") :
    (UpdateAttenuationUniforms light gl).uniforms n = gl.uniforms n := by
  unfold UpdateAttenuationUniforms
  simp only [SetShaderUniform_uniforms, if_neg h1, if_neg h2, if_neg h3]

theorem UpdateAttenuationUniforms_some (l : Light) (gl : GLState) :
    (UpdateAttenuationUniforms (some l) gl).uniforms "constantAttenuation" =
        some (.float l.GetAttenuation.1) ∧
      (UpdateAttenuationUniforms (some l) gl).uniforms "linearAttenuation" =
        some (.float l.GetAttenuation.2.1) ∧
      (UpdateAttenuationUniforms (some l) gl).uniforms "quadraticAttenuation" =
        some (.float l.GetAttenuation.2.2) := by
  unfold UpdateAttenuationUniforms
  simp [SetShaderUniform_uniforms]

/-- Reading a uniform after `SetupShaderLighting` with a light whose hook does not write it and
which is none of the attenuation uniforms or `genericLight.color`: the value the `switch`
left. -/
theorem SetupShaderLighting_some_other (E : LightType) (l : Light) (gl : GLState) (n : String)
    (hhook : ∀ w ∈ l.SetupShaderUniforms, w.1 ≠ n)
    (h0 : n ≠ "genericLight.color") (h1 : n ≠ "constantAttenuation")
    (h2 : n ≠ "linearAttenuation") (h3 : n ≠ "quadraticAttenuation") :
    (SetupShaderLighting E (some l) gl).uniforms n = (lightingSwitch E l gl).uniforms n := by
  unfold SetupShaderLighting
  simp only
  rw [UpdateAttenuationUniforms_other _ _ n h1 h2 h3, runShaderUniforms_uniforms _ _ _ hhook,
    SetShaderUniform_uniforms, if_neg h0]

/-! ## C5 -/

/-- C5: `SetupShaderLighting` without a light sets `lightingType` to the GLOBAL tag and the
attenuation uniforms to (1, 0, 0); every other uniform, the variant-specific ones and
`genericLight.color` among them, keeps its value, nothing is written to `std::cerr` and the rest
of the context is as before. -/
theorem C5_no_light_global_tag_and_unit_attenuation (E : LightType) (gl : GLState) :
    (SetupShaderLighting E none gl).uniforms "lightingType" = some (.int E.GLOBAL) ∧
    (SetupShaderLighting E none gl).uniforms "constantAttenuation" = some (.float float_1) ∧
    (SetupShaderLighting E none gl).uniforms "linearAttenuation" = some (.float float_0) ∧
    (SetupShaderLighting E none gl).uniforms "quadraticAttenuation" = some (.float float_0) ∧
    (SetupShaderLighting E none gl).uniforms "pointLight.radius" =
      gl.uniforms "pointLight.radius" ∧
    (SetupShaderLighting E none gl).uniforms "directionalLight.direction" =
      gl.uniforms "directionalLight.direction" ∧
    (SetupShaderLighting E none gl).uniforms "hemisphereLight.csky" =
      gl.uniforms "hemisphereLight.csky" ∧
    (SetupShaderLighting E none gl).uniforms "hemisphereLight.cground" =
      gl.uniforms "hemisphereLight.cground" ∧
    (SetupShaderLighting E none gl).uniforms "genericLight.color" =
      gl.uniforms "genericLight.color" ∧
    (∀ n : String,
      n ∉ ["lightingType", "constantAttenuation", "linearAttenuation", "quadraticAttenuation"] →
        (SetupShaderLighting E none gl).uniforms n = gl.uniforms n) ∧
    { SetupShaderLighting E none gl with uniforms := gl.uniforms } = gl := by
  have frame : ∀ n : String,
      n ∉ ["lightingType", "constantAttenuation", "linearAttenuation", "quadraticAttenuation"] →
        (SetupShaderLighting E none gl).uniforms n = gl.uniforms n := by
    intro n hn
    simp only [List.mem_cons, List.mem_singleton, List.not_mem_nil, or_false, not_or] at hn
    unfold SetupShaderLighting
    simp only
    rw [UpdateAttenuationUniforms_other _ _ n hn.2.1 hn.2.2.1 hn.2.2.2,
      SetShaderUniform_uniforms, if_neg hn.1]
  refine ⟨?_, ?_, ?_, ?_, frame _ (by decide), frame _ (by decide), frame _ (by decide),
    frame _ (by decide), frame _ (by decide), frame, rfl⟩
  · unfold SetupShaderLighting
    simp only
    rw [UpdateAttenuationUniforms_other _ _ _ (by decide) (by decide) (by decide),
      SetShaderUniform_uniforms, if_pos rfl]
  · unfold SetupShaderLighting UpdateAttenuationUniforms
    simp [SetShaderUniform_uniforms]
  · unfold SetupShaderLighting UpdateAttenuationUniforms
    simp [SetShaderUniform_uniforms]
  · unfold SetupShaderLighting UpdateAttenuationUniforms
    simp [SetShaderUniform_uniforms]

/-! ## C6 -/

theorem lightingSwitch_default (E : LightType) (l : Light) (gl : GLState)
    (htag : l.GetLightType ≠ E.POINT ∧ l.GetLightType ≠ E.DIRECTIONAL ∧
      l.GetLightType ≠ E.HEMISPHERE) :
    lightingSwitch E l gl =
      SetShaderUniform "lightingType" (.int E.GLOBAL)
        (cerrLine (unsupportedLightWarning l.GetLightType) gl) := by
  unfold lightingSwitch
  rw [if_neg htag.1, if_neg htag.2.1, if_neg htag.2.2]

/-- C6: for a light whose type tag is none of POINT, DIRECTIONAL, HEMISPHERE and whose own
hook writes neither `lightingType` nor `genericLight.color`, `SetupShaderLighting` appends to
`std::cerr` exactly one line, the text of line 81 followed by the decimal numeral of the
light's own tag, sets `lightingType` to the GLOBAL tag, sets `genericLight.color` to the
light's diffuse colour and sets the three attenuation uniforms to the triple the light
reports. -/
theorem C6_unrecognised_tag_warns_and_falls_back (E : LightType) (l : Light) (gl : GLState)
    (htag : l.GetLightType ≠ E.POINT ∧ l.GetLightType ≠ E.DIRECTIONAL ∧
      l.GetLightType ≠ E.HEMISPHERE)
    (hhook : ∀ w ∈ l.SetupShaderUniforms, w.1 ≠ "lightingType" ∧ w.1 ≠ "genericLight.color") :
    (SetupShaderLighting E (some l) gl).cerr =
      gl.cerr ++ ["WARNING: Light type is not supported. Defaulting to global light. Your output may look wrong. -- Ignoring: "
        ++ toString l.GetLightType] ∧
    (SetupShaderLighting E (some l) gl).uniforms "lightingType" = some (.int E.GLOBAL) ∧
    (SetupShaderLighting E (some l) gl).uniforms "genericLight.color" =
      some (.vec4 l.GetPropertiesRaw.diffuseColor) ∧
    (SetupShaderLighting E (some l) gl).uniforms "constantAttenuation" =
      some (.float l.GetAttenuation.1) ∧
    (SetupShaderLighting E (some l) gl).uniforms "linearAttenuation" =
      some (.float l.GetAttenuation.2.1) ∧
    (SetupShaderLighting E (some l) gl).uniforms "quadraticAttenuation" =
      some (.float l.GetAttenuation.2.2) := by
  refine ⟨?_, ?_, ?_, ?_⟩
  · unfold SetupShaderLighting
    simp only
    rw [UpdateAttenuationUniforms_cerr, runShaderUniforms_cerr, SetShaderUniform_cerr,
      lightingSwitch_default E l gl htag, SetShaderUniform_cerr]
    rfl
  · rw [SetupShaderLighting_some_other E l gl _ (fun w hw => (hhook w hw).1) (by decide)
      (by decide) (by decide) (by decide), lightingSwitch_default E l gl htag,
      SetShaderUniform_uniforms, if_pos rfl]
  · unfold SetupShaderLighting
    simp only
    rw [UpdateAttenuationUniforms_other _ _ _ (by decide) (by decide) (by decide),
      runShaderUniforms_uniforms _ _ _ (fun w hw => (hhook w hw).2), SetShaderUniform_uniforms,
      if_pos rfl]
  · exact UpdateAttenuationUniforms_some l _

/-- C6 at a light with tag 7 (enumerators 0 to 3): the warning ends in `7`, the type falls back
to 0, colour and attenuation are the light's. -/
theorem C6_unrecognised_tag_warns_and_falls_back_witness :
    (SetupShaderLighting LightType.standard (some strangeLight) GLState.fresh).cerr =
      [] ++ ["WARNING: Light type is not supported. Defaulting to global light. Your output may look wrong. -- Ignoring: 7"] ∧
    (SetupShaderLighting LightType.standard (some strangeLight) GLState.fresh).uniforms
      "lightingType" = some (.int 0) ∧
    (SetupShaderLighting LightType.standard (some strangeLight) GLState.fresh).uniforms
      "genericLight.color" = some (.vec4 ⟨float_1, float_1, float_1, float_1⟩) ∧
    (SetupShaderLighting LightType.standard (some strangeLight) GLState.fresh).uniforms
      "constantAttenuation" = some (.float float_1) ∧
    (SetupShaderLighting LightType.standard (some strangeLight) GLState.fresh).uniforms
      "linearAttenuation" = some (.float float_0_5) ∧
    (SetupShaderLighting LightType.standard (some strangeLight) GLState.fresh).uniforms
      "quadraticAttenuation" = some (.float float_0) :=
  C6_unrecognised_tag_warns_and_falls_back LightType.standard strangeLight GLState.fresh
    (by decide) (by decide)

/-! ## C7 -/

/-- C7: for a light whose type tag is POINT, DIRECTIONAL or HEMISPHERE (the three `case`
labels being distinct) and whose own hook writes neither `lightingType` nor a variant-specific
uniform, `SetupShaderLighting` sets `lightingType` to the light's own tag; for POINT it sets
`pointLight.radius` to the light's radius, for DIRECTIONAL `directionalLight.direction` to the
light's forward direction, for HEMISPHERE `hemisphereLight.csky` and `hemisphereLight.cground`
to the light's sky and ground colour, in each case leaving the uniforms of the two other
variants as they were; and the attenuation uniforms are the triple the light reports. -/
theorem C7_recognised_tag_populates_own_variant (E : LightType) (l : Light) (gl : GLState)
    (hE : E.DistinctCases)
    (htag : l.GetLightType = E.POINT ∨ l.GetLightType = E.DIRECTIONAL ∨
      l.GetLightType = E.HEMISPHERE)
    (hhook : ∀ w ∈ l.SetupShaderUniforms,
      w.1 ≠ "lightingType" ∧ w.1 ≠ "pointLight.radius" ∧ w.1 ≠ "directionalLight.direction" ∧
        w.1 ≠ "hemisphereLight.csky" ∧ w.1 ≠ "hemisphereLight.cground") :
    (SetupShaderLighting E (some l) gl).uniforms "lightingType" = some (.int l.GetLightType) ∧
    (l.GetLightType = E.POINT →
      (SetupShaderLighting E (some l) gl).uniforms "pointLight.radius" =
        some (.float l.GetPropertiesRaw.radius) ∧
      (SetupShaderLighting E (some l) gl).uniforms "directionalLight.direction" =
        gl.uniforms "directionalLight.direction" ∧
      (SetupShaderLighting E (some l) gl).uniforms "hemisphereLight.csky" =
        gl.uniforms "hemisphereLight.csky" ∧
      (SetupShaderLighting E (some l) gl).uniforms "hemisphereLight.cground" =
        gl.uniforms "hemisphereLight.cground") ∧
    (l.GetLightType = E.DIRECTIONAL →
      (SetupShaderLighting E (some l) gl).uniforms "directionalLight.direction" =
        some (.vec4 l.GetForwardDirection) ∧
      (SetupShaderLighting E (some l) gl).uniforms "pointLight.radius" =
        gl.uniforms "pointLight.radius" ∧
      (SetupShaderLighting E (some l) gl).uniforms "hemisphereLight.csky" =
        gl.uniforms "hemisphereLight.csky" ∧
      (SetupShaderLighting E (some l) gl).uniforms "hemisphereLight.cground" =
        gl.uniforms "hemisphereLight.cground") ∧
    (l.GetLightType = E.HEMISPHERE →
      (SetupShaderLighting E (some l) gl).uniforms "hemisphereLight.csky" =
        some (.vec4 l.GetPropertiesRaw.skyColor) ∧
      (SetupShaderLighting E (some l) gl).uniforms "hemisphereLight.cground" =
        some (.vec4 l.GetPropertiesRaw.groundColor) ∧
      (SetupShaderLighting E (some l) gl).uniforms "pointLight.radius" =
        gl.uniforms "pointLight.radius" ∧
      (SetupShaderLighting E (some l) gl).uniforms "directionalLight.direction" =
        gl.uniforms "directionalLight.direction") ∧
    (SetupShaderLighting E (some l) gl).uniforms "constantAttenuation" =
      some (.float l.GetAttenuation.1) ∧
    (SetupShaderLighting E (some l) gl).uniforms "linearAttenuation" =
      some (.float l.GetAttenuation.2.1) ∧
    (SetupShaderLighting E (some l) gl).uniforms "quadraticAttenuation" =
      some (.float l.GetAttenuation.2.2) := by
  obtain ⟨hPD, hPH, hDH⟩ := hE
  have r0 := SetupShaderLighting_some_other E l gl "lightingType"
    (fun w hw => (hhook w hw).1) (by decide) (by decide) (by decide) (by decide)
  have r1 := SetupShaderLighting_some_other E l gl "pointLight.radius"
    (fun w hw => (hhook w hw).2.1) (by decide) (by decide) (by decide) (by decide)
  have r2 := SetupShaderLighting_some_other E l gl "directionalLight.direction"
    (fun w hw => (hhook w hw).2.2.1) (by decide) (by decide) (by decide) (by decide)
  have r3 := SetupShaderLighting_some_other E l gl "hemisphereLight.csky"
    (fun w hw => (hhook w hw).2.2.2.1) (by decide) (by decide) (by decide) (by decide)
  have r4 := SetupShaderLighting_some_other E l gl "hemisphereLight.cground"
    (fun w hw => (hhook w hw).2.2.2.2) (by decide) (by decide) (by decide) (by decide)
  rw [r0, r1, r2, r3, r4]
  refine ⟨?_, ?_, ?_, ?_, UpdateAttenuationUniforms_some l _⟩
  · rcases htag with h | h | h
    · unfold lightingSwitch
      rw [if_pos h, h]
      simp [SetShaderUniform_uniforms]
    · unfold lightingSwitch
      rw [if_neg (by rw [h]; exact fun e => hPD e.symm), if_pos h, h]
      simp [SetShaderUniform_uniforms]
    · unfold lightingSwitch
      rw [if_neg (by rw [h]; exact fun e => hPH e.symm),
        if_neg (by rw [h]; exact fun e => hDH e.symm), if_pos h, h]
      simp [SetShaderUniform_uniforms]
  · intro h
    unfold lightingSwitch
    rw [if_pos h]
    simp [SetShaderUniform_uniforms]
  · intro h
    unfold lightingSwitch
    rw [if_neg (by rw [h]; exact fun e => hPD e.symm), if_pos h]
    simp [SetShaderUniform_uniforms]
  · intro h
    unfold lightingSwitch
    rw [if_neg (by rw [h]; exact fun e => hPH e.symm),
      if_neg (by rw [h]; exact fun e => hDH e.symm), if_pos h]
    simp [SetShaderUniform_uniforms]

/-- C7 at a point light of radius 5 (enumerators 0 to 3, POINT = 1): the type uniform is 1
and the radius uniform is `5.f`. -/
theorem C7_recognised_tag_populates_own_variant_witness :
    (SetupShaderLighting LightType.standard (some pointLight5) GLState.fresh).uniforms
      "lightingType" = some (.int 1) ∧
    (SetupShaderLighting LightType.standard (some pointLight5) GLState.fresh).uniforms
      "pointLight.radius" = some (.float float_5) :=
  ⟨(C7_recognised_tag_populates_own_variant LightType.standard pointLight5 GLState.fresh
      (by decide) (by decide) (by decide)).1,
    ((C7_recognised_tag_populates_own_variant LightType.standard pointLight5 GLState.fresh
      (by decide) (by decide) (by decide)).2.1 rfl).1⟩

/-! ## C8 -/

/-- C8: on an empty slot table with a loaded default texture `d` (and `SPECULAR` a fourth
slot identity), `SetupShaderMaterials` returns, the diffuse unit and the specular unit hold `d`,
the normal and displacement units hold what they held before, and `useNormalTexture` and
`useDisplacementTexture` are 0. -/
theorem C8_empty_table_binds_default_twice (SPECULAR : Int) (s : EpicShader) (gl : GLState)
    (d : Texture) (hS : TextureSlots.FourthIdentity SPECULAR)
    (hempty : s.textureSlotMapping = fun _ => none) (hdefault : s.defaultTexture = some d) :
    (s.SetupShaderMaterials SPECULAR gl).map (GLState.textureBindings SPECULAR) =
      .ok (some d, some d, gl.textureUnits TextureSlots.NORMAL,
        gl.textureUnits TextureSlots.DISPLACEMENT, some (.int 0), some (.int 0)) := by
  obtain ⟨-, hN, hD⟩ := hS
  unfold EpicShader.SetupShaderMaterials EpicShader.bindRequired EpicShader.bindOptional
  simp only [hempty, hdefault, Except.map]
  simp [GLState.textureBindings, EpicShader.textureUnitUniforms, SetShaderUniform,
    Texture.BeginRender, glBindBufferBase, TextureSlots.DIFFUSE, TextureSlots.NORMAL,
    TextureSlots.DISPLACEMENT] at hN hD ⊢
  refine ⟨?_, ?_⟩
  · intro h
    exact absurd h.symm hN
  · intro h
    exact absurd h.symm hD

/-- C8 at a concrete shader (default texture 7, `SPECULAR` = 3) in a fresh context. -/
theorem C8_empty_table_binds_default_twice_witness :
    (defaultOnlyShader.SetupShaderMaterials 3 GLState.fresh).map (GLState.textureBindings 3) =
      .ok (some ⟨7⟩, some ⟨7⟩, none, none, some (.int 0), some (.int 0)) :=
  C8_empty_table_binds_default_twice 3 defaultOnlyShader GLState.fresh ⟨7⟩ (by decide) rfl rfl

/-! ## C9 -/

/-- C9: for every texture `X`, starting from an empty slot table with a loaded default texture
`d` (and `SPECULAR` a fourth slot identity), `SetTexture(NORMAL, X)` followed by
`SetupShaderMaterials` returns with `X` on the normal unit and `useNormalTexture` 1, while the
diffuse and the specular unit hold `d`, the displacement unit holds what it held before and
`useDisplacementTexture` is 0. -/
theorem C9_normal_slot_does_not_alias (SPECULAR : Int) (s : EpicShader) (gl : GLState)
    (d X : Texture) (hS : TextureSlots.FourthIdentity SPECULAR)
    (hempty : s.textureSlotMapping = fun _ => none) (hdefault : s.defaultTexture = some d) :
    ((s.SetTexture TextureSlots.NORMAL (some X)).SetupShaderMaterials SPECULAR gl).map
        (GLState.textureBindings SPECULAR) =
      .ok (some d, some d, some X, gl.textureUnits TextureSlots.DISPLACEMENT,
        some (.int 1), some (.int 0)) := by
  obtain ⟨-, hN, hD⟩ := hS
  unfold EpicShader.SetupShaderMaterials EpicShader.bindRequired EpicShader.bindOptional
    EpicShader.SetTexture
  simp [hempty, hdefault, Except.map, GLState.textureBindings, EpicShader.textureUnitUniforms,
    SetShaderUniform, Texture.BeginRender, glBindBufferBase, TextureSlots.DIFFUSE,
    TextureSlots.NORMAL, TextureSlots.DISPLACEMENT] at hN hD ⊢
  simp [hN, hD]
  intro h
  exact absurd h.symm hD

/-- C9 at a concrete shader (default texture 7, `X` = texture 9, `SPECULAR` = 3). -/
theorem C9_normal_slot_does_not_alias_witness :
    ((defaultOnlyShader.SetTexture TextureSlots.NORMAL (some ⟨9⟩)).SetupShaderMaterials 3
        GLState.fresh).map (GLState.textureBindings 3) =
      .ok (some ⟨7⟩, some ⟨7⟩, some ⟨9⟩, none, some (.int 1), some (.int 0)) :=
  C9_normal_slot_does_not_alias 3 defaultOnlyShader GLState.fresh ⟨7⟩ ⟨9⟩ (by decide) rfl rfl

/-! ## C10 -/

/-- C10 (evaluation at the failing input): a shader constructed with its default texture
loaded (texture 7, resolved 16-byte block) imports a material whose diffuse texture file fails
to load, or gets `SetTexture(DIFFUSE, empty handle)`; the slot then holds an empty handle, and
the next `SetupShaderMaterials` stops at `assert(diffuseTexture)`. -/
theorem C10_empty_handle_in_slot_fails_assertion (SPECULAR : Int) (path : String) :
    (EpicShader.ctor 1 0 packedOffsets packedSetup (some ⟨7⟩) GLState.fresh).map
        (fun r => r.1.defaultTexture) = .ok (some ⟨7⟩) ∧
    constructThenBind SPECULAR (fun _ => none) 1 0 packedOffsets packedSetup (some ⟨7⟩)
        GLState.fresh [.LoadMaterialFromAssimp (some (diffuseTextureMaterial path))] =
      .error .assertionFailed ∧
    constructThenBind SPECULAR (fun _ => none) 1 0 packedOffsets packedSetup (some ⟨7⟩)
        GLState.fresh [.SetTexture TextureSlots.DIFFUSE none] =
      .error .assertionFailed :=
  ⟨rfl, rfl, rfl⟩

/-! ## C11 -/

end CS148
